import Mathlib

/-!
Verification development for the wound-analysis backend (nrcm).

The Python sources under `backend/app` are shallowly embedded:
pure functions over floats become functions over `ℚ` (with Python's
round-half-to-even modelled explicitly), masks become bounded grids of
naturals, and the segmentation oracle (MobileSAM) is an opaque parameter.
`determine_risk_level` and `get_debug_metrics` are imported by the
response adapter but absent from the source tree; where a definition
has to stand in for them it is marked `Modelled from the spec:`.
-/

namespace NRCM

/-- Python `round` to the nearest integer with ties to even, on exact values. -/
def roundHalfEven (x : ℚ) : ℤ :=
  if x - ⌊x⌋ < 1/2 then ⌊x⌋
  else if 1/2 < x - ⌊x⌋ then ⌊x⌋ + 1
  else if ⌊x⌋ % 2 = 0 then ⌊x⌋ else ⌊x⌋ + 1

/-- Python `round(x, 1)` on exact values. -/
def pyRound1 (x : ℚ) : ℚ := (roundHalfEven (x * 10) : ℚ) / 10

/-- Python `round(x, 2)` on exact values. -/
def pyRound2 (x : ℚ) : ℚ := (roundHalfEven (x * 100) : ℚ) / 100

theorem roundHalfEven_intCast (n : ℤ) : roundHalfEven (n : ℚ) = n := by
  unfold roundHalfEven
  simp [Int.floor_intCast]

theorem roundHalfEven_nonneg {x : ℚ} (hx : 0 ≤ x) : 0 ≤ roundHalfEven x := by
  unfold roundHalfEven
  have hf : (0:ℤ) ≤ ⌊x⌋ := Int.floor_nonneg.mpr hx
  split_ifs <;> omega

theorem roundHalfEven_le {x : ℚ} {n : ℤ} (h : x ≤ (n : ℚ)) : roundHalfEven x ≤ n := by
  unfold roundHalfEven
  have hfl : ⌊x⌋ ≤ n := by
    have := Int.floor_le_floor h
    simpa [Int.floor_intCast] using this
  have hfr : (⌊x⌋ : ℚ) ≤ x := Int.floor_le x
  by_cases hEq : ⌊x⌋ = n
  · have hx0 : x - (⌊x⌋ : ℚ) < 1/2 := by
      have : x - (⌊x⌋ : ℚ) ≤ 0 := by
        have : x ≤ (⌊x⌋ : ℚ) := by rw [hEq]; exact_mod_cast h
        linarith
      linarith
    simp only [hx0, if_pos]
    omega
  · have hlt : ⌊x⌋ + 1 ≤ n := by omega
    split_ifs <;> omega

theorem pyRound1_nonneg {x : ℚ} (hx : 0 ≤ x) : 0 ≤ pyRound1 x := by
  unfold pyRound1
  have : (0:ℤ) ≤ roundHalfEven (x * 10) := roundHalfEven_nonneg (by positivity)
  positivity

theorem pyRound1_le_100 {x : ℚ} (hx : x ≤ 100) : pyRound1 x ≤ 100 := by
  unfold pyRound1
  have h10 : x * 10 ≤ ((1000 : ℤ) : ℚ) := by push_cast; linarith
  have := roundHalfEven_le h10
  have hc : ((roundHalfEven (x * 10) : ℤ) : ℚ) ≤ 1000 := by exact_mod_cast this
  linarith

theorem pyRound2_hundredth {x : ℚ} (h : ∃ k : ℤ, x = (k : ℚ) / 100) : pyRound2 x = x := by
  obtain ⟨k, rfl⟩ := h
  unfold pyRound2
  have hk : (k : ℚ) / 100 * 100 = (k : ℚ) := by field_simp
  rw [hk, roundHalfEven_intCast]

/-! ## Trajectory service (`services/trajectory.py`) -/

inductive RiskLevel where
  | green
  | amber
  | red
deriving DecidableEq

/-- Embeds `calculate_expected_trajectory`: compounding daily area reduction,
each day value rounded to one decimal (healing_rate defaults to 0.10 at
the call sites). -/
def calculate_expected_trajectory (initial_area : ℚ) (days : ℕ) (healing_rate : ℚ) : List ℚ :=
  (List.range days).map (fun t => pyRound1 (initial_area * (1 - healing_rate) ^ t))

/-- Embeds the trajectory module's own `calculate_risk_level` (deviation/trend based). -/
def calculate_risk_level (deviation_pct trend_pct : ℚ) : RiskLevel × String :=
  if trend_pct > 0 then (.red, "Wound area increased over the last 2 days")
  else if deviation_pct > 20 then (.red, "Wound area significantly larger than expected")
  else if -5 ≤ trend_pct ∧ trend_pct ≤ 0 then (.amber, "Healing stalled (minimal area reduction)")
  else if deviation_pct > 10 then (.amber, "Healing progress is slower than expected")
  else (.green, "Healing is progressing as expected")

/-- Embeds `compare_trajectories`; returns (deviation_pct, trend_pct). -/
def compare_trajectories (expected actual : List ℚ) : ℚ × ℚ :=
  if expected = [] ∨ actual = [] then (0, 0)
  else
    let current_expected :=
      if actual.length ≤ expected.length then expected.getD (actual.length - 1) 0
      else expected.getD (expected.length - 1) 0
    let current_actual := actual.getD (actual.length - 1) 0
    let deviation_pct :=
      if current_expected > 0 then (current_actual - current_expected) / current_expected * 100
      else 0
    let trend_pct :=
      if 2 ≤ actual.length then
        let prev_area := actual.getD (actual.length - 2) 0
        if prev_area > 0 then (current_actual - prev_area) / prev_area * 100 else 0
      else 0
    (pyRound1 deviation_pct, pyRound1 trend_pct)

inductive SegMode where
  | normal
  | fallback
deriving DecidableEq

structure TrajectoryAnalysis where
  trajectory_status : String
  risk_level : Option RiskLevel
  expected : List ℚ
  actual : List ℚ
  alert : Bool
  reason : String

/-- Embeds `analyze_trajectory`. -/
def analyze_trajectory (area_history : List ℚ) (segmentation_mode : SegMode) : TrajectoryAnalysis :=
  if segmentation_mode = .fallback then
    ⟨"indeterminate", none, [], area_history, false,
      "Segmentation fallback mode; area metrics unreliable"⟩
  else if area_history = [] then
    ⟨"insufficient_data", some .green, [], [], false,
      "Not enough data for trajectory analysis"⟩
  else
    let initial_area := area_history.headD 0
    let expected_curve := calculate_expected_trajectory initial_area area_history.length (1/10)
    let comparison := compare_trajectories expected_curve area_history
    let rr := calculate_risk_level comparison.1 comparison.2
    ⟨"analyzed", some rr.1, expected_curve, area_history,
      rr.1 == .amber || rr.1 == .red, rr.2⟩

/-! ## Risk determination (spec-modelled) and risk thresholds (`config.py`) -/

def RED_AREA_CHANGE_PCT : ℚ := 5
def RED_REDNESS_MAX : ℚ := 100
def RED_PUS_MAX : ℚ := 100
def AMBER_AREA_CHANGE_PCT : ℚ := 0
def GREEN_REDNESS_MAX : ℚ := 15
def GREEN_PUS_MAX : ℚ := 2

structure RiskAssessment where
  risk_level : RiskLevel
  alert_reasons : List String
  area_change_pct : ℚ

/-- Percentage change of the area between two observations, 0 when the
previous area is not positive. -/
def area_change_pct (current_area previous_area : ℚ) : ℚ :=
  if previous_area ≤ 0 then 0
  else (current_area - previous_area) / previous_area * 100

/-- Modelled from the spec: `determine_risk_level` is imported from
`services.trajectory` by the response adapter and the analyze route but is
not present in the source tree. Following spec section 4.4: RED when the
area change exceeds the RED area threshold, or redness exceeds the RED
redness threshold, or pus exceeds the RED pus threshold, accumulating all
matched reasons; else AMBER under the AMBER area threshold and the
baseline (GREEN-max) redness/pus thresholds; else GREEN with a default
reason. Thresholds are `RISK_THRESHOLDS` from `config.py`. -/
def determine_risk_level (current_area previous_area redness_pct pus_pct : ℚ) : RiskAssessment :=
  let acp := area_change_pct current_area previous_area
  let redReasons :=
    (if acp > RED_AREA_CHANGE_PCT then ["Wound area increase exceeds RED threshold"] else []) ++
    (if redness_pct > RED_REDNESS_MAX then ["Peri-wound redness exceeds RED threshold"] else []) ++
    (if pus_pct > RED_PUS_MAX then ["Exudate level exceeds RED threshold"] else [])
  if redReasons ≠ [] then ⟨.red, redReasons, acp⟩
  else
    let amberReasons :=
      (if acp > AMBER_AREA_CHANGE_PCT then ["Wound area not decreasing"] else []) ++
      (if redness_pct > GREEN_REDNESS_MAX then ["Peri-wound redness above baseline"] else []) ++
      (if pus_pct > GREEN_PUS_MAX then ["Exudate above baseline"] else [])
    if amberReasons ≠ [] then ⟨.amber, amberReasons, acp⟩
    else ⟨.green, ["Healing is progressing as expected"], acp⟩

theorem three_flags_ne_nil (c1 c2 c3 : Prop) [Decidable c1] [Decidable c2] [Decidable c3]
    (x y z : String) :
    ((if c1 then [x] else []) ++ (if c2 then [y] else []) ++ (if c3 then [z] else []) ≠ []) ↔
      (c1 ∨ c2 ∨ c3) := by
  split_ifs <;> simp_all

theorem mem_first_flag (c1 c2 c3 : Prop) [Decidable c1] [Decidable c2] [Decidable c3]
    (x y z : String) (h : c1) :
    x ∈ (if c1 then [x] else []) ++ (if c2 then [y] else []) ++ (if c3 then [z] else []) := by
  split_ifs <;> simp_all

theorem mem_second_flag (c1 c2 c3 : Prop) [Decidable c1] [Decidable c2] [Decidable c3]
    (x y z : String) (h : c2) :
    y ∈ (if c1 then [x] else []) ++ (if c2 then [y] else []) ++ (if c3 then [z] else []) := by
  split_ifs <;> simp_all

theorem mem_third_flag (c1 c2 c3 : Prop) [Decidable c1] [Decidable c2] [Decidable c3]
    (x y z : String) (h : c3) :
    z ∈ (if c1 then [x] else []) ++ (if c2 then [y] else []) ++ (if c3 then [z] else []) := by
  split_ifs <;> simp_all

/-! ## Gilman healing model (spec section 4.4, glossary) -/

/-- Modelled from the spec: the Gilman expected-area curve,
`expected_area(t) = π · (max 0 (sqrt (A0 / π) − k · t))²`, for baseline
area `A0` and linear radial healing rate `k`. This is the specification's
formula, stated for comparison with `calculate_expected_trajectory`. -/
noncomputable def gilman_expected_area (A0 k : ℝ) (t : ℕ) : ℝ :=
  Real.pi * (max 0 (Real.sqrt (A0 / Real.pi) - k * t)) ^ 2

/-! ## Data model (`schemas.py`) -/

structure TrajectoryData where
  expected : List ℚ
  actual : List ℚ
deriving DecidableEq

structure PatientMetadata where
  is_smoker : Bool
  has_diabetes : Bool
  age : Option ℕ
  surgery_type : Option String
  has_reference_object : Bool
deriving DecidableEq

structure MeasurementData where
  area_cm2 : ℚ
  redness_pct : ℚ
  pus_pct : ℚ
  risk_level : RiskLevel
  trajectory : TrajectoryData
  alert_reason : Option String
  deviation_cm2 : ℚ
deriving DecidableEq

structure SimulationData where
  enabled : Bool
  assumptions_used : List String
  simulated_area_cm2 : ℚ
  reference_curve : List ℚ
  extrapolated_curve : List ℚ
  completion_window_days : List ℚ
  confidence : String
deriving DecidableEq

/-! ## Simulation service (`services/simulation.py`) -/

def SMOKING_MULTIPLIER : ℚ := 8/10
def DIABETES_MULTIPLIER : ℚ := 7/10
def BASE_RATE : ℚ := 5/100
def REFERENCE_OBJECT_SCALE : ℚ := 98/100

/-- Embeds `simulate_reference_curve`: scale only the rate of change,
preserving the starting point, rounding each value to 2 decimals. -/
def simulate_reference_curve (base_curve : List ℚ) (velocity_multiplier : ℚ) : List ℚ :=
  if base_curve = [] then []
  else
    let baseline := base_curve.headD 0
    base_curve.map (fun v => pyRound2 (baseline + (v - baseline) * velocity_multiplier))

/-- Embeds `extrapolate_curve`: extend by `steps` points via linear
extrapolation of the last two points, flooring each new value at 0 and
rounding to 2 decimals. -/
def extrapolate_curve (curve : List ℚ) (steps : ℕ) : List ℚ :=
  if curve.length < 2 then curve
  else
    let lastv := curve.getD (curve.length - 1) 0
    let prevv := curve.getD (curve.length - 2) 0
    let slope := lastv - prevv
    curve ++ (List.range steps).map
      (fun i : ℕ => pyRound2 (max 0 (lastv + slope * ((i : ℚ) + 1))))

/-- Embeds `run_hypothetical_simulation`. The Python function receives the
measurement object and only ever reads it; the embedding passes the
measurement state through explicitly, so the second component is the
measurement as the function leaves it. -/
def run_hypothetical_simulation (measurement : MeasurementData) (metadata : PatientMetadata) :
    SimulationData × MeasurementData :=
  let vm1 : ℚ := 1
  let s1 : ℚ × List String :=
    if metadata.is_smoker then (vm1 * SMOKING_MULTIPLIER, ["Smoking adjustment: -20% healing velocity"])
    else (vm1, [])
  let s2 : ℚ × List String :=
    if metadata.has_diabetes then (s1.1 * DIABETES_MULTIPLIER, s1.2 ++ ["Diabetes adjustment: -30% healing velocity"])
    else s1
  let s3 : ℚ × List String :=
    if metadata.has_reference_object then
      (measurement.area_cm2 * REFERENCE_OBJECT_SCALE, s2.2 ++ ["Reference-normalized area (1-euro coin benchmark)"])
    else (measurement.area_cm2, s2.2)
  let velocity_multiplier := s2.1
  let simulated_area := s3.1
  let assumptions := s3.2
  let sim_ref_curve := simulate_reference_curve measurement.trajectory.expected velocity_multiplier
  let extrapolated := extrapolate_curve sim_ref_curve 3
  let adjusted_rate := BASE_RATE * velocity_multiplier
  let window : ℚ × ℚ :=
    if adjusted_rate > 0 then
      let days_to_zero := simulated_area / (adjusted_rate * 2)
      (days_to_zero * (8/10), days_to_zero * (15/10))
    else (0, 0)
  (⟨true,
    if assumptions = [] then ["Base healing model (no metadata)"] else assumptions,
    pyRound2 simulated_area,
    sim_ref_curve,
    extrapolated,
    [pyRound1 window.1, pyRound1 window.2],
    "LOW"⟩, measurement)

/-! ## Response adapter (`utils/response_adapter.py`) -/

/-- Python float value as seen by the adapter guard: a number or NaN. -/
inductive PyFloat where
  | num (q : ℚ)
  | nan
deriving DecidableEq

def PyFloat.isnan : PyFloat → Bool
  | .nan => true
  | .num _ => false

/-- Embeds the adapter guard (response_adapter.py lines 62-64): abort when
any of the three metrics is None, or `np.isnan` holds for the area or the
redness value. The source does not test `np.isnan` on the pus value. -/
def build_metrics_guard (area redness pus : Option PyFloat) : Bool :=
  (area.isNone || redness.isNone || pus.isNone) ||
  (match area with | some v => v.isnan | none => false) ||
  (match redness with | some v => v.isnan | none => false)

structure Observation where
  area : ℚ
  redness : ℚ
  pus : ℚ
deriving DecidableEq

structure AnalysisFlags where
  demo_mode : Bool
  fallback_segmentation : Bool
  research_mode : Bool
deriving DecidableEq

def LIMITATIONS : List String :=
  ["Single-image analysis per capture",
   "No explicit image registration across observations",
   "Lighting normalized, not fully corrected",
   "Simulation outputs have LOW confidence"]

/-- Assembled response; the nondeterministic metadata fields of the source
(analysis uuid, capture timestamp) are omitted from the model. -/
structure FrontendResponse where
  measurement : MeasurementData
  simulation : Option SimulationData
  limitations : List String
  flags : AnalysisFlags
  day_index : ℕ
  observation_count : ℕ

/-- Embeds `build_frontend_response` on the numeric path (after the guard):
`history` is the session history, which at the call site already contains
the current observation; `area`, `redness`, `pus` are the extracted
metrics of the current image (the output of the absent `get_debug_metrics`,
taken here as parameters). -/
def build_frontend_response (history : List Observation) (area redness pus : ℚ)
    (metadata : Option PatientMetadata) (demo_mode fallback_used enable_simulation : Bool) :
    FrontendResponse :=
  let actual := history.map (·.area)
  let baseline := (history.map (·.area)).headD 0
  let days_to_project := max actual.length 5
  let expected := calculate_expected_trajectory baseline days_to_project (1/10)
  let risk : RiskLevel × List String :=
    if actual.length = 1 then (.green, [])
    else
      let prev_area := actual.getD (actual.length - 2) 0
      let ra := determine_risk_level area prev_area redness pus
      (ra.risk_level, ra.alert_reasons)
  let current_day_idx := actual.length - 1
  let deviation :=
    if current_day_idx < expected.length ∧ 1 < actual.length then
      pyRound2 (area - expected.getD current_day_idx 0)
    else 0
  let alert_reason0 := risk.2.head?
  let alert_reason :=
    if risk.1 ≠ .green ∧ alert_reason0 = none then
      some "Wound monitoring indicates visual deviation from expected trend"
    else alert_reason0
  let measurement : MeasurementData :=
    ⟨area, redness, pus, risk.1, ⟨expected, actual⟩, alert_reason, deviation⟩
  let simulation : Option SimulationData :=
    match enable_simulation, metadata with
    | true, some md =>
        some { (run_hypothetical_simulation measurement md).1 with enabled := true }
    | _, _ => none
  ⟨measurement, simulation, LIMITATIONS,
    ⟨demo_mode, fallback_used, true⟩, actual.length, actual.length⟩

/-! ## Masks and region metrics (`services/metrics.py`)

A mask is an `h × w` array of `uint8` values, modelled as a shape together
with a value function that is zero outside the array bounds. The BGR→HSV
conversion performed by OpenCV is an external library call; the metric
functions are modelled on the HSV view of the image, an arbitrary
function from pixel coordinates to (hue, saturation, value). -/

structure MaskA where
  h : ℕ
  w : ℕ
  val : ℤ → ℤ → ℕ

def inBounds (h w : ℕ) (i j : ℤ) : Prop :=
  0 ≤ i ∧ i < (h : ℤ) ∧ 0 ≤ j ∧ j < (w : ℤ)

instance (h w : ℕ) (i j : ℤ) : Decidable (inBounds h w i j) := by
  unfold inBounds; infer_instance

def grid (h w : ℕ) : Finset (ℤ × ℤ) :=
  Finset.Ico 0 (h : ℤ) ×ˢ Finset.Ico 0 (w : ℤ)

/-- Number of nonzero pixels of a mask (`np.count_nonzero`). -/
def countNonzero (m : MaskA) : ℕ :=
  ((grid m.h m.w).filter (fun p => m.val p.1 p.2 ≠ 0)).card

def PIXELS_PER_CM2 : ℚ := 120
def RED_HUE_LOW_1 : ℕ := 0
def RED_HUE_HIGH_1 : ℕ := 10
def RED_HUE_LOW_2 : ℕ := 170
def RED_HUE_HIGH_2 : ℕ := 180
def RED_SAT_MIN : ℕ := 80
def PUS_SAT_MAX : ℕ := 60
def PUS_VAL_MIN : ℕ := 180

def clampPct (x : ℚ) : ℚ := max 0 (min 100 x)

/-- Embeds `calculate_wound_area`. -/
def calculate_wound_area (mask : MaskA) : ℚ :=
  if mask.h * mask.w = 0 then 0
  else pyRound1 ((countNonzero mask : ℚ) / PIXELS_PER_CM2)

/-- Region of interest of a mask: the in-bounds pixels with positive value. -/
def maskRoi (m : MaskA) : Finset (ℤ × ℤ) :=
  (grid m.h m.w).filter (fun p => 0 < m.val p.1 p.2)

/-- Pixels of a region that pass the red-hue/saturation test. -/
def redPixels (hsv : ℤ → ℤ → ℕ × ℕ × ℕ) (roi : Finset (ℤ × ℤ)) : Finset (ℤ × ℤ) :=
  roi.filter (fun p =>
    ((RED_HUE_LOW_1 ≤ (hsv p.1 p.2).1 ∧ (hsv p.1 p.2).1 ≤ RED_HUE_HIGH_1) ∨
     (RED_HUE_LOW_2 ≤ (hsv p.1 p.2).1 ∧ (hsv p.1 p.2).1 ≤ RED_HUE_HIGH_2)) ∧
    RED_SAT_MIN ≤ (hsv p.1 p.2).2.1)

/-- Pixels of a region that pass the low-saturation/high-value exudate test. -/
def pusPixels (hsv : ℤ → ℤ → ℕ × ℕ × ℕ) (roi : Finset (ℤ × ℤ)) : Finset (ℤ × ℤ) :=
  roi.filter (fun p => (hsv p.1 p.2).2.1 ≤ PUS_SAT_MAX ∧ PUS_VAL_MIN ≤ (hsv p.1 p.2).2.2)

/-- Embeds `calculate_redness` on the HSV view of the image. -/
def calculate_redness (hsv : ℤ → ℤ → ℕ × ℕ × ℕ) (peri_wound_mask : MaskA) : ℚ :=
  if peri_wound_mask.h * peri_wound_mask.w = 0 then 0
  else if (maskRoi peri_wound_mask).card = 0 then 0
  else pyRound1 (clampPct
    (((redPixels hsv (maskRoi peri_wound_mask)).card : ℚ) /
      ((maskRoi peri_wound_mask).card : ℚ) * 100))

/-- Embeds `calculate_exudate` on the HSV view of the image. -/
def calculate_exudate (hsv : ℤ → ℤ → ℕ × ℕ × ℕ) (wound_mask : MaskA) : ℚ :=
  if wound_mask.h * wound_mask.w = 0 then 0
  else if (maskRoi wound_mask).card = 0 then 0
  else pyRound1 (clampPct
    (((pusPixels hsv (maskRoi wound_mask)).card : ℚ) /
      ((maskRoi wound_mask).card : ℚ) * 100))

/-! ## Segmentation service (`services/segmentation.py`) -/

/-- Half-width of row `a` of the 41×41 elliptical structuring element
(`cv2.getStructuringElement(MORPH_ELLIPSE, (41, 41))`): the nearest
integer to `sqrt (400 - a²)`. -/
def dxRow (a : ℕ) : ℕ :=
  let m := 400 - a * a
  let s := Nat.sqrt m
  if s * s + s < m then s + 1 else s

/-- Offsets covered by the 41×41 elliptical structuring element used with
`dilation_px = 20`. -/
def ellipseKernel : Finset (ℤ × ℤ) :=
  (Finset.Icc (-20 : ℤ) 20 ×ˢ Finset.Icc (-20 : ℤ) 20).filter
    (fun d => d.2.natAbs ≤ dxRow d.1.natAbs)

theorem center_mem_ellipseKernel : ((0 : ℤ), (0 : ℤ)) ∈ ellipseKernel := by
  unfold ellipseKernel
  simp [Finset.mem_filter, Finset.mem_product]

/-- Embeds `cv2.dilate` with the elliptical kernel: each in-bounds pixel
takes the maximum of the mask over the kernel neighbourhood; the output
array has the shape of the input. -/
def dilate (m : MaskA) : MaskA :=
  ⟨m.h, m.w, fun i j =>
    if inBounds m.h m.w i j then ellipseKernel.sup (fun d => m.val (i + d.1) (j + d.2))
    else 0⟩

/-- Subtraction of `uint8` array elements (wraps modulo 256). -/
def u8sub (a b : ℕ) : ℕ := (a + 256 - b) % 256

/-- Embeds `_generate_peri_wound_mask`: dilate, subtract the original,
binarize with `> 0`. -/
def generate_peri_wound_mask (wound_mask : MaskA) : MaskA :=
  let d := dilate wound_mask
  ⟨wound_mask.h, wound_mask.w, fun i j =>
    if inBounds wound_mask.h wound_mask.w i j ∧ 0 < u8sub (d.val i j) (wound_mask.val i j)
    then 1 else 0⟩

/-- Embeds the centre clamping of `_generate_demo_masks`. -/
def clampedCenter (h w : ℕ) (pt : ℤ × ℤ) (radius : ℤ) : ℤ × ℤ :=
  (max radius (min ((w : ℤ) - radius) pt.1), max radius (min ((h : ℤ) - radius) pt.2))

/-- Embeds `_generate_demo_masks`: a filled circle of the given radius at
the clamped point, and the derived peri-wound ring. -/
def generate_demo_masks (h w : ℕ) (pt : ℤ × ℤ) (radius : ℤ) : MaskA × MaskA :=
  let c := clampedCenter h w pt radius
  let wound : MaskA :=
    ⟨h, w, fun i j =>
      if inBounds h w i j ∧ (j - c.1) ^ 2 + (i - c.2) ^ 2 ≤ radius ^ 2 then 1 else 0⟩
  (wound, generate_peri_wound_mask wound)

/-- The segmentation oracle's candidate mask: `MobileSAMPredictor.predict`
thresholds its output with `> 0`, so the produced mask is boolean, carried
here with its claimed shape. -/
structure OracleMask where
  h : ℕ
  w : ℕ
  val : ℤ → ℤ → Bool

def oracleToMask (o : OracleMask) : MaskA :=
  ⟨o.h, o.w, fun i j => if inBounds o.h o.w i j ∧ o.val i j then 1 else 0⟩

def maskSum (m : MaskA) : ℕ := ∑ p ∈ grid m.h m.w, m.val p.1 p.2

/-- Embeds `_validate_mask`: reject a missing mask, a shape mismatch, an
empty mask, and a mask covering more than 90% of the image. -/
def validate_mask : Option MaskA → ℕ → ℕ → Bool
  | none, _, _ => false
  | some m, h, w =>
      decide (m.h = h) && decide (m.w = w) && decide (maskSum m ≠ 0) &&
      decide ((maskSum m : ℚ) ≤ 9/10 * ((h * w : ℕ) : ℚ))

/-- Embeds `segment_wound`. The image argument carries only what the
function inspects: `none` for Python `None`, otherwise the list of array
dimensions. The oracle result (already `none` when the model is not
loaded or inference failed) is an explicit argument. -/
def segment_wound (image : Option (List ℕ)) (point : ℤ × ℤ) (demo_mode : Bool)
    (oracle : Option OracleMask) : MaskA × MaskA :=
  match image with
  | none => generate_demo_masks 480 640 point 80
  | some dims =>
      if dims.length ≠ 3 ∨ dims.getD 2 0 ≠ 3 then
        if 2 ≤ dims.length then generate_demo_masks (dims.getD 0 0) (dims.getD 1 0) point 80
        else generate_demo_masks 480 640 point 80
      else
        let hh := dims.getD 0 0
        let ww := dims.getD 1 0
        match demo_mode, oracle with
        | false, some o =>
            let m := oracleToMask o
            if validate_mask (some m) hh ww then (m, generate_peri_wound_mask m)
            else generate_demo_masks hh ww point 80
        | _, _ => generate_demo_masks hh ww point 80

/-! ## Segmentation lemmas -/

theorem dilate_le_one {m : MaskA} (hb : ∀ i j, m.val i j ≤ 1) (i j : ℤ) :
    (dilate m).val i j ≤ 1 := by
  unfold dilate
  dsimp only
  split_ifs with hin
  · exact Finset.sup_le fun d _ => hb _ _
  · omega

theorem le_dilate (m : MaskA) {i j : ℤ} (hin : inBounds m.h m.w i j) :
    m.val i j ≤ (dilate m).val i j := by
  unfold dilate
  dsimp only
  rw [if_pos hin]
  have := Finset.le_sup (f := fun d : ℤ × ℤ => m.val (i + d.1) (j + d.2)) center_mem_ellipseKernel
  simpa using this

theorem peri_wound_binary (m : MaskA) (i j : ℤ) :
    (generate_peri_wound_mask m).val i j ≤ 1 := by
  unfold generate_peri_wound_mask
  dsimp only
  split_ifs <;> omega

theorem peri_wound_shape (m : MaskA) :
    (generate_peri_wound_mask m).h = m.h ∧ (generate_peri_wound_mask m).w = m.w :=
  ⟨rfl, rfl⟩

theorem peri_wound_disjoint (m : MaskA) (hb : ∀ i j, m.val i j ≤ 1) (i j : ℤ) :
    ¬(m.val i j = 1 ∧ (generate_peri_wound_mask m).val i j = 1) := by
  rintro ⟨h1, h2⟩
  unfold generate_peri_wound_mask at h2
  dsimp only at h2
  split_ifs at h2 with hc
  · obtain ⟨hin, hpos⟩ := hc
    have hdil : (dilate m).val i j = 1 :=
      le_antisymm (dilate_le_one hb i j) (h1 ▸ le_dilate m hin)
    rw [hdil, h1] at hpos
    simp [u8sub] at hpos

theorem demo_wound_binary (h w : ℕ) (pt : ℤ × ℤ) (r : ℤ) (i j : ℤ) :
    ((generate_demo_masks h w pt r).1).val i j ≤ 1 := by
  unfold generate_demo_masks
  dsimp only
  split_ifs <;> omega

theorem oracle_mask_binary (o : OracleMask) (i j : ℤ) : (oracleToMask o).val i j ≤ 1 := by
  unfold oracleToMask
  dsimp only
  split_ifs <;> omega

theorem demo_masks_pair (h w : ℕ) (pt : ℤ × ℤ) (r : ℤ) :
    generate_demo_masks h w pt r =
      ((generate_demo_masks h w pt r).1,
        generate_peri_wound_mask (generate_demo_masks h w pt r).1) := rfl

/-- Every run of `segment_wound` returns a binary wound mask together with
the peri-wound mask generated from it. -/
theorem segment_wound_shape_spec (image : Option (List ℕ)) (pt : ℤ × ℤ) (dm : Bool)
    (orc : Option OracleMask) :
    ∃ m : MaskA, (∀ i j, m.val i j ≤ 1) ∧
      segment_wound image pt dm orc = (m, generate_peri_wound_mask m) := by
  cases image with
  | none =>
      exact ⟨(generate_demo_masks 480 640 pt 80).1,
        demo_wound_binary 480 640 pt 80, demo_masks_pair 480 640 pt 80⟩
  | some dims =>
      cases dm with
      | true =>
          simp only [segment_wound]
          split_ifs <;>
            exact ⟨_, demo_wound_binary _ _ pt 80, demo_masks_pair _ _ pt 80⟩
      | false =>
          cases orc with
          | none =>
              simp only [segment_wound]
              split_ifs <;>
                exact ⟨_, demo_wound_binary _ _ pt 80, demo_masks_pair _ _ pt 80⟩
          | some o =>
              simp only [segment_wound]
              split_ifs with h1 h2 hv
              · exact ⟨_, demo_wound_binary _ _ pt 80, demo_masks_pair _ _ pt 80⟩
              · exact ⟨_, demo_wound_binary _ _ pt 80, demo_masks_pair _ _ pt 80⟩
              · exact ⟨oracleToMask o, oracle_mask_binary o, rfl⟩
              · exact ⟨_, demo_wound_binary _ _ pt 80, demo_masks_pair _ _ pt 80⟩

/-- C5: for every image, point, demo flag and oracle answer, the peri-wound
mask returned by `segment_wound` is exactly `generate_peri_wound_mask` of
the returned wound mask (dilation by the fixed elliptical kernel, minus
the wound mask, binarized); both masks are binary, share the same shape,
and are disjoint at every pixel. -/
theorem c5_peri_wound_mask_invariants (image : Option (List ℕ)) (pt : ℤ × ℤ) (dm : Bool)
    (orc : Option OracleMask) :
    (segment_wound image pt dm orc).2 =
        generate_peri_wound_mask (segment_wound image pt dm orc).1 ∧
    (segment_wound image pt dm orc).2.h = (segment_wound image pt dm orc).1.h ∧
    (segment_wound image pt dm orc).2.w = (segment_wound image pt dm orc).1.w ∧
    (∀ i j, (segment_wound image pt dm orc).1.val i j ≤ 1) ∧
    (∀ i j, (segment_wound image pt dm orc).2.val i j ≤ 1) ∧
    (∀ i j, ¬((segment_wound image pt dm orc).1.val i j = 1 ∧
              (segment_wound image pt dm orc).2.val i j = 1)) := by
  obtain ⟨m, hb, heq⟩ := segment_wound_shape_spec image pt dm orc
  rw [heq]
  exact ⟨rfl, rfl, rfl, hb, peri_wound_binary m, peri_wound_disjoint m hb⟩

theorem c5_witness :
    ¬((segment_wound none (320, 240) true none).1.val 100 100 = 1 ∧
      (segment_wound none (320, 240) true none).2.val 100 100 = 1) :=
  (c5_peri_wound_mask_invariants none (320, 240) true none).2.2.2.2.2 100 100

/-- C10: `segment_wound` is total on its image argument and substitutes
circular fallback masks for every degenerate input: a missing image uses
the default 480×640 shape, a 2-D image and an image whose last dimension
is not 3 use their own height and width, and a 1-D shape falls back to
480×640 as well. -/
theorem c10_segment_wound_totality :
    (∀ (pt : ℤ × ℤ) (dm : Bool) (orc : Option OracleMask),
      segment_wound none pt dm orc = generate_demo_masks 480 640 pt 80) ∧
    (∀ (h w : ℕ) (pt : ℤ × ℤ) (dm : Bool) (orc : Option OracleMask),
      segment_wound (some [h, w]) pt dm orc = generate_demo_masks h w pt 80) ∧
    (∀ (h w c : ℕ) (pt : ℤ × ℤ) (dm : Bool) (orc : Option OracleMask), c ≠ 3 →
      segment_wound (some [h, w, c]) pt dm orc = generate_demo_masks h w pt 80) ∧
    (∀ (n : ℕ) (pt : ℤ × ℤ) (dm : Bool) (orc : Option OracleMask),
      segment_wound (some [n]) pt dm orc = generate_demo_masks 480 640 pt 80) := by
  refine ⟨fun pt dm orc => rfl, fun h w pt dm orc => ?_, fun h w c pt dm orc hc => ?_,
    fun n pt dm orc => ?_⟩
  · simp [segment_wound]
  · simp [segment_wound, hc]
  · simp [segment_wound]

theorem c10_witness :
    segment_wound (some [100, 200, 4]) (3, 4) false none =
      generate_demo_masks 100 200 (3, 4) 80 :=
  c10_segment_wound_totality.2.2.1 100 200 4 (3, 4) false none (by decide)

/-! ## Metric bound lemmas -/

theorem clampPct_nonneg (x : ℚ) : 0 ≤ clampPct x := le_max_left 0 _

theorem clampPct_le_100 (x : ℚ) : clampPct x ≤ 100 :=
  max_le (by norm_num) (min_le_left _ _)

/-- C6: the wound area is nonnegative, and the redness and pus percentages
are within [0, 100], are exact tenths (the 1-decimal rounding), and are 0
whenever the respective region of interest has no pixels. In the rational
model no value is NaN by construction; the empty-mask early returns of the
source are the `h·w = 0` and `roi.card = 0` branches. -/
theorem c6_metric_bounds (mask : MaskA) (hsv : ℤ → ℤ → ℕ × ℕ × ℕ) (peri wound : MaskA) :
    0 ≤ calculate_wound_area mask ∧
    (0 ≤ calculate_redness hsv peri ∧ calculate_redness hsv peri ≤ 100) ∧
    (0 ≤ calculate_exudate hsv wound ∧ calculate_exudate hsv wound ≤ 100) ∧
    (∃ k : ℤ, calculate_redness hsv peri = (k : ℚ) / 10) ∧
    (∃ k : ℤ, calculate_exudate hsv wound = (k : ℚ) / 10) ∧
    ((maskRoi peri).card = 0 → calculate_redness hsv peri = 0) ∧
    ((maskRoi wound).card = 0 → calculate_exudate hsv wound = 0) := by
  refine ⟨?_, ⟨?_, ?_⟩, ⟨?_, ?_⟩, ?_, ?_, ?_, ?_⟩
  · unfold calculate_wound_area
    split_ifs
    · exact le_refl 0
    · exact pyRound1_nonneg (div_nonneg (by positivity) (by norm_num [PIXELS_PER_CM2]))
  · unfold calculate_redness
    split_ifs
    · exact le_refl 0
    · exact le_refl 0
    · exact pyRound1_nonneg (clampPct_nonneg _)
  · unfold calculate_redness
    split_ifs
    · norm_num
    · norm_num
    · exact pyRound1_le_100 (clampPct_le_100 _)
  · unfold calculate_exudate
    split_ifs
    · exact le_refl 0
    · exact le_refl 0
    · exact pyRound1_nonneg (clampPct_nonneg _)
  · unfold calculate_exudate
    split_ifs
    · norm_num
    · norm_num
    · exact pyRound1_le_100 (clampPct_le_100 _)
  · unfold calculate_redness
    split_ifs
    · exact ⟨0, by norm_num⟩
    · exact ⟨0, by norm_num⟩
    · exact ⟨_, rfl⟩
  · unfold calculate_exudate
    split_ifs
    · exact ⟨0, by norm_num⟩
    · exact ⟨0, by norm_num⟩
    · exact ⟨_, rfl⟩
  · intro h0
    unfold calculate_redness
    split_ifs <;> rfl
  · intro h0
    unfold calculate_exudate
    split_ifs <;> rfl

theorem c6_witness :
    calculate_redness (fun _ _ => (0, 0, 0)) ⟨0, 0, fun _ _ => 0⟩ = 0 :=
  (c6_metric_bounds ⟨0, 0, fun _ _ => 0⟩ (fun _ _ => (0, 0, 0)) ⟨0, 0, fun _ _ => 0⟩
      ⟨0, 0, fun _ _ => 0⟩).2.2.2.2.2.1 (by simp [maskRoi, grid])

/-! ## Fallback handling, baseline rule, simulation independence, guard -/

/-- C1 (amended): the trajectory-analysis service skips risk evaluation
entirely when the current observation was segmented in fallback mode; for
every area history it returns a null risk level and a false alert flag.
The response assembler, by contrast, does not consult the fallback flag
when computing its risk level (see the counterexample). -/
theorem c1_amended_fallback_skips_risk (area_history : List ℚ) :
    (analyze_trajectory area_history .fallback).risk_level = none ∧
    (analyze_trajectory area_history .fallback).alert = false := by
  unfold analyze_trajectory
  simp

/-- C1 counterexample: an analysis built by the response assembler with
`fallback_used = true` still carries a definite risk level (here GREEN for
a single-observation session); the fallback flag is only recorded in the
response flags, so the claimed null/indeterminate risk level does not hold
for the assembled response. -/
theorem c1_counterexample_assembler_ignores_fallback :
    (build_frontend_response [⟨12, 50, 50⟩] 12 50 50 none false true true).flags.fallback_segmentation = true ∧
    (build_frontend_response [⟨12, 50, 50⟩] 12 50 50 none false true true).measurement.risk_level = RiskLevel.green := by
  constructor
  · rfl
  · rfl

/-- C4: the simulation engine never mutates the measurement: the
measurement state after `run_hypothetical_simulation` is the input
measurement, in particular its area, redness and pus values are unchanged,
for every measurement and every patient metadata. -/
theorem c4_simulation_leaves_measurement_unchanged (m : MeasurementData) (md : PatientMetadata) :
    (run_hypothetical_simulation m md).2 = m ∧
    (run_hypothetical_simulation m md).2.area_cm2 = m.area_cm2 ∧
    (run_hypothetical_simulation m md).2.redness_pct = m.redness_pct ∧
    (run_hypothetical_simulation m md).2.pus_pct = m.pus_pct :=
  ⟨rfl, rfl, rfl, rfl⟩

/-- C7: a session whose history holds exactly one observation (the
first-ever observation) is assembled with risk level GREEN and deviation
0, regardless of the observation and of the raw metric values. -/
theorem c7_first_observation_baseline (obs : Observation) (area redness pus : ℚ)
    (md : Option PatientMetadata) (dm fu es : Bool) :
    (build_frontend_response [obs] area redness pus md dm fu es).measurement.risk_level =
        RiskLevel.green ∧
    (build_frontend_response [obs] area redness pus md dm fu es).measurement.deviation_cm2 = 0 := by
  constructor
  · rfl
  · rfl

/-- C8: the adapter guard aborts on a missing metric and on a NaN area or
NaN redness, but it does not test the pus value for NaN: with
`pus_pct = NaN` and numeric area and redness, the guard does not fire and
response construction proceeds, contradicting the stated hard guard. -/
theorem c8_guard_misses_nan_pus :
    build_metrics_guard (some (.num 5)) (some (.num 10)) (some .nan) = false ∧
    build_metrics_guard (some (.num 5)) (some (.num 10)) none = true ∧
    build_metrics_guard (some .nan) (some (.num 10)) (some (.num 1)) = true ∧
    build_metrics_guard (some (.num 5)) (some .nan) (some (.num 1)) = true := by
  refine ⟨rfl, rfl, rfl, rfl⟩

/-! ## Risk determination characterization (C2) -/

/-- C2 (spec-modelled): the risk determination computes the area change
percentage as `(current − previous)/previous·100` (0 when the previous
area is not positive); the result is RED exactly when one of the three
RED threshold conditions holds, AMBER exactly when none of them holds and
one of the AMBER/baseline conditions holds, GREEN otherwise; and every
matched condition contributes its reason to the returned list. -/
theorem c2_determine_risk_level_charact (cur prev r p : ℚ) :
    (determine_risk_level cur prev r p).area_change_pct = area_change_pct cur prev ∧
    ((determine_risk_level cur prev r p).risk_level = .red ↔
      (area_change_pct cur prev > RED_AREA_CHANGE_PCT ∨ r > RED_REDNESS_MAX ∨ p > RED_PUS_MAX)) ∧
    ((determine_risk_level cur prev r p).risk_level = .amber ↔
      (¬(area_change_pct cur prev > RED_AREA_CHANGE_PCT ∨ r > RED_REDNESS_MAX ∨ p > RED_PUS_MAX) ∧
        (area_change_pct cur prev > AMBER_AREA_CHANGE_PCT ∨ r > GREEN_REDNESS_MAX ∨ p > GREEN_PUS_MAX))) ∧
    ((determine_risk_level cur prev r p).risk_level = .green ↔
      (¬(area_change_pct cur prev > RED_AREA_CHANGE_PCT ∨ r > RED_REDNESS_MAX ∨ p > RED_PUS_MAX) ∧
        ¬(area_change_pct cur prev > AMBER_AREA_CHANGE_PCT ∨ r > GREEN_REDNESS_MAX ∨ p > GREEN_PUS_MAX))) ∧
    (area_change_pct cur prev > RED_AREA_CHANGE_PCT →
      "Wound area increase exceeds RED threshold" ∈ (determine_risk_level cur prev r p).alert_reasons) ∧
    (r > RED_REDNESS_MAX →
      "Peri-wound redness exceeds RED threshold" ∈ (determine_risk_level cur prev r p).alert_reasons) ∧
    (p > RED_PUS_MAX →
      "Exudate level exceeds RED threshold" ∈ (determine_risk_level cur prev r p).alert_reasons) ∧
    (¬(area_change_pct cur prev > RED_AREA_CHANGE_PCT ∨ r > RED_REDNESS_MAX ∨ p > RED_PUS_MAX) →
      (area_change_pct cur prev > AMBER_AREA_CHANGE_PCT →
        "Wound area not decreasing" ∈ (determine_risk_level cur prev r p).alert_reasons) ∧
      (r > GREEN_REDNESS_MAX →
        "Peri-wound redness above baseline" ∈ (determine_risk_level cur prev r p).alert_reasons) ∧
      (p > GREEN_PUS_MAX →
        "Exudate above baseline" ∈ (determine_risk_level cur prev r p).alert_reasons)) := by
  unfold determine_risk_level
  by_cases h1 : area_change_pct cur prev > RED_AREA_CHANGE_PCT <;>
    by_cases h2 : r > RED_REDNESS_MAX <;>
    by_cases h3 : p > RED_PUS_MAX <;>
    by_cases h4 : area_change_pct cur prev > AMBER_AREA_CHANGE_PCT <;>
    by_cases h5 : r > GREEN_REDNESS_MAX <;>
    by_cases h6 : p > GREEN_PUS_MAX <;>
    simp_all

theorem c2_witness :
    (determine_risk_level 10 5 0 0).risk_level = RiskLevel.red :=
  ((c2_determine_risk_level_charact 10 5 0 0).2.1).mpr
    (Or.inl (by norm_num [area_change_pct, RED_AREA_CHANGE_PCT]))

/-! ## Expected healing curve vs the Gilman model (C3) -/

theorem pyRound1_intCast (n : ℤ) : pyRound1 (n : ℚ) = (n : ℚ) := by
  unfold pyRound1
  rw [show ((n : ℚ) * 10) = (((10 * n : ℤ) : ℤ) : ℚ) by push_cast; ring, roundHalfEven_intCast]
  push_cast
  ring

/-- C3 (amended): the expected healing curve has one value per projected
day, and the value for day `t` is `round₁ (A0 · (1 − rate)^t)` — a
compounding daily percentage reduction of the area, not the Gilman
radial-shrinkage formula. -/
theorem c3_amended_expected_curve (a rate : ℚ) (days t : ℕ) (ht : t < days) :
    (calculate_expected_trajectory a days rate).length = days ∧
    (calculate_expected_trajectory a days rate)[t]? =
      some (pyRound1 (a * (1 - rate) ^ t)) := by
  constructor
  · simp [calculate_expected_trajectory]
  · simp [calculate_expected_trajectory, List.getElem?_map, List.getElem?_range ht]

theorem c3_witness :
    (calculate_expected_trajectory 1000 3 (1/10)).length = 3 ∧
    (calculate_expected_trajectory 1000 3 (1/10))[1]? =
      some (pyRound1 (1000 * (1 - 1/10) ^ 1)) :=
  c3_amended_expected_curve 1000 (1/10) 3 1 (by decide)

/-- C3 counterexample: with baseline area 1000 the code produces the days
1000, 900, 810 (exactly, no rounding involved), but no radial healing
rate `k` makes the Gilman curve pass through 900 at day 1 and 810 at day
2; the two formulas differ. -/
theorem c3_counterexample_not_gilman :
    calculate_expected_trajectory 1000 3 (1/10) = [1000, 900, 810] ∧
    ∀ k : ℝ, ¬(gilman_expected_area 1000 k 1 = 900 ∧ gilman_expected_area 1000 k 2 = 810) := by
  constructor
  · unfold calculate_expected_trajectory
    have e0 : pyRound1 ((1000 : ℚ) * (1 - 1/10) ^ 0) = 1000 := by
      rw [show ((1000 : ℚ) * (1 - 1/10) ^ 0) = (((1000 : ℤ) : ℤ) : ℚ) by norm_num]
      rw [pyRound1_intCast]; norm_num
    have e1 : pyRound1 ((1000 : ℚ) * (1 - 1/10) ^ 1) = 900 := by
      rw [show ((1000 : ℚ) * (1 - 1/10) ^ 1) = (((900 : ℤ) : ℤ) : ℚ) by norm_num]
      rw [pyRound1_intCast]; norm_num
    have e2 : pyRound1 ((1000 : ℚ) * (1 - 1/10) ^ 2) = 810 := by
      rw [show ((1000 : ℚ) * (1 - 1/10) ^ 2) = (((810 : ℤ) : ℤ) : ℚ) by norm_num]
      rw [pyRound1_intCast]; norm_num
    rw [show List.range 3 = [0, 1, 2] from rfl]
    simp only [List.map_cons, List.map_nil]
    rw [e0, e1, e2]
  · intro k hk
    obtain ⟨h1, h2⟩ := hk
    have hπ : (0 : ℝ) < Real.pi := Real.pi_pos
    unfold gilman_expected_area at h1 h2
    push_cast at h1 h2
    set r0 := Real.sqrt (1000 / Real.pi) with hr0def
    have hr0sq : Real.pi * r0 ^ 2 = 1000 := by
      rw [hr0def, Real.sq_sqrt (by positivity)]
      field_simp
    by_cases hk1 : r0 - k * 1 ≤ 0
    · rw [max_eq_left hk1] at h1
      norm_num at h1
    · push_neg at hk1
      rw [max_eq_right hk1.le] at h1
      by_cases hk2 : r0 - k * 2 ≤ 0
      · rw [max_eq_left hk2] at h2
        norm_num at h2
      · push_neg at hk2
        rw [max_eq_right hk2.le] at h2
        rw [show r0 - k * 2 = 2 * (r0 - k * 1) - r0 by ring] at h2
        have hprod : Real.pi * ((r0 - k * 1) * r0) = 1895 / 2 := by
          linear_combination h1 + (1/4 : ℝ) * hr0sq - (1/4 : ℝ) * h2
        have hx : (Real.pi * (r0 - k * 1) ^ 2) * (Real.pi * r0 ^ 2) =
            (Real.pi * ((r0 - k * 1) * r0)) ^ 2 := by ring
        rw [h1, hr0sq, hprod] at hx
        norm_num at hx

/-! ## Extrapolation continuity (C9) -/

def isHundredth (x : ℚ) : Prop := ∃ k : ℤ, x = (k : ℚ) / 100

/-- C9 (amended): when the linearly extrapolated next value
`b + (b − a)` is nonnegative (so the floor at 0 does not engage) and the
reference values carry at most two decimals (as `simulate_reference_curve`
produces), the first extrapolated point continues the curve linearly:
it equals `2·b − a`, whose difference from `b` is `b − a`. -/
theorem c9_amended_extrapolation_continuity (c : List ℚ) (a b : ℚ) (steps : ℕ)
    (hs : 1 ≤ steps) (ha : isHundredth a) (hb : isHundredth b) (hnn : 0 ≤ 2 * b - a) :
    (extrapolate_curve (c ++ [a, b]) steps).get? (c ++ [a, b]).length = some (2 * b - a) ∧
    (2 * b - a) - b = b - a := by
  refine ⟨?_, by ring⟩
  have hlen : (c ++ [a, b]).length = c.length + 2 := by simp
  have hLast : (c ++ [a, b]).getD ((c ++ [a, b]).length - 1) 0 = b := by
    rw [List.getD_eq_getD_get?, hlen]
    rw [show c.length + 2 - 1 = c.length + 1 by omega]
    rw [List.get?_append_right (by omega)]
    simp
  have hPrev : (c ++ [a, b]).getD ((c ++ [a, b]).length - 2) 0 = a := by
    rw [List.getD_eq_getD_get?, hlen]
    rw [show c.length + 2 - 2 = c.length by omega]
    rw [List.get?_append_right (by omega)]
    simp
  unfold extrapolate_curve
  rw [if_neg (by omega), hLast, hPrev]
  rw [List.get?_append_right (le_refl _)]
  rw [Nat.sub_self]
  obtain ⟨s, hsteps⟩ : ∃ s, steps = s + 1 := ⟨steps - 1, by omega⟩
  subst hsteps
  rw [List.get?_map, List.get?_range (show 0 < s + 1 by omega)]
  show some (pyRound2 (max 0 (b + (b - a) * (((0 : ℕ) : ℚ) + 1)))) = some (2 * b - a)
  rw [show (b + (b - a) * (((0 : ℕ) : ℚ) + 1)) = 2 * b - a by push_cast; ring]
  rw [max_eq_right hnn]
  obtain ⟨ka, hka⟩ := ha
  obtain ⟨kb, hkb⟩ := hb
  rw [pyRound2_hundredth ⟨2 * kb - ka, by rw [hka, hkb]; push_cast; ring⟩]

theorem c9_witness :
    (extrapolate_curve ([] ++ [(5 : ℚ), 4]) 3).get? ([] ++ [(5 : ℚ), 4]).length =
        some (2 * 4 - 5) ∧
    (2 * (4 : ℚ) - 5) - 4 = 4 - 5 :=
  c9_amended_extrapolation_continuity [] 5 4 3 (by decide)
    ⟨500, by norm_num⟩ ⟨400, by norm_num⟩ (by norm_num)

/-- C9 counterexample: for the reference curve [5, 1] the linear
continuation would be −3, the code floors it to 0, and the first
extrapolated point no longer continues the curve linearly:
0 − 1 ≠ 1 − 5. -/
theorem c9_counterexample_floor_breaks_continuity :
    (extrapolate_curve [5, 1] 3).get? 2 = some 0 ∧ ((0 : ℚ) - 1 ≠ 1 - 5) := by
  constructor
  · unfold extrapolate_curve
    norm_num [List.range_succ, pyRound2, roundHalfEven]
  · norm_num

end NRCM
